/-
Verification of the `data-picker` library (src/DataPicker.ts).

The TypeScript class `DataPicker` wraps a key-value mapping and exposes
type-checked getters.  This file gives a shallow embedding of that class
and proves the specified properties about it.

Modelling conventions:
* JavaScript runtime values are the inductive `Value`.  TypeScript type
  annotations are erased at runtime, so every fallback parameter is
  modelled as `Option Value` (`none` = argument omitted; JavaScript binds
  an omitted optional parameter to `undefined`).
* JavaScript numbers are `JSNum`: `NaN`, signed infinity, or a finite
  value modelled as an exact rational (double rounding is not modelled;
  no verified property distinguishes it).
* Exceptions are modelled with `Except JSError`.  The spec's
  `MissingKeyError` is the code's `ReferenceError`, `TypeMismatchError`
  and `InvalidInputError` are the code's `TypeError`.
* `Date` objects are `Value.date t` where `t` is the timestamp held by
  the object (`new Date(t)`), possibly `NaN` for an invalid date.
-/
import Mathlib

set_option linter.unusedVariables false

/-- A JavaScript number: `NaN`, an infinity, or a finite value
(modelled as an exact rational). -/
inductive JSNum where
  | nan
  | inf (neg : Bool)
  | fin (q : Rat)

/-- `Number.isFinite`. -/
def JSNum.isFinite : JSNum → Bool
  | .fin _ => true
  | _ => false

/-- The JavaScript comparison `n > 0`. -/
def JSNum.gtZero : JSNum → Bool
  | .nan => false
  | .inf neg => !neg
  | .fin q => 0 < q.num

/-- A JavaScript runtime value. -/
inductive Value where
  | undefined
  | null
  | bool (b : Bool)
  | num (n : JSNum)
  | str (s : String)
  | arr (elems : List Value)
  | obj (fields : List (String × Value))
  | date (timestamp : JSNum)

/-- The JavaScript `typeof` operator (note `typeof null` is `"object"`). -/
def jsTypeof : Value → String
  | .undefined => "undefined"
  | .null => "object"
  | .bool _ => "boolean"
  | .num _ => "number"
  | .str _ => "string"
  | .arr _ => "object"
  | .obj _ => "object"
  | .date _ => "object"

/-- The JavaScript strict comparison `v === undefined`. -/
def Value.isUndefined : Value → Bool
  | .undefined => true
  | _ => false

/-- The JavaScript strict comparison `v === null`. -/
def Value.isNull : Value → Bool
  | .null => true
  | _ => false

/-- JavaScript truthiness (`!!v`): `undefined`, `null`, `false`, `NaN`,
`0` and `""` are falsy, everything else is truthy. -/
def Value.truthy : Value → Bool
  | .undefined => false
  | .null => false
  | .bool b => b
  | .num .nan => false
  | .num (.inf _) => true
  | .num (.fin q) => !(q == 0)
  | .str s => !(s == "")
  | .arr _ => true
  | .obj _ => true
  | .date _ => true

/-- The own string-keyed properties of a value, as an association list:
an object contributes its fields, an array its index properties and
`length`.  Primitives, `null` and `Date` objects have no own
string-keyed properties relevant to this development. -/
def Value.ownFields : Value → List (String × Value)
  | .obj fields => fields
  | .arr elems =>
      (elems.enum.map (fun iv => (toString iv.1, iv.2)))
        ++ [("length", .num (.fin (elems.length : Nat)))]
  | _ => []

mutual

/-- Models Node's `util.inspect` rendering of a value, as used in the
library's error messages.  The exact text differs from Node's: this
model renders every element and every nesting level, whereas Node's
default options truncate long arrays and deep nesting.  No theorem
relies on the internal structure of the rendered text; it is only ever
embedded whole into a message. -/
def inspect : Value → String
  | .undefined => "undefined"
  | .null => "null"
  | .bool true => "true"
  | .bool false => "false"
  | .num n => inspectNum n
  | .str s => "'" ++ s ++ "'"
  | .arr elems => "[ " ++ inspectElems elems ++ " ]"
  | .obj fields => "\x7b " ++ inspectFields fields ++ " \x7d"
  | .date t => "Date(" ++ inspectNum t ++ ")"

/-- Rendering of a `JSNum` for `inspect`. -/
def inspectNum : JSNum → String
  | .nan => "NaN"
  | .inf true => "-Infinity"
  | .inf false => "Infinity"
  | .fin q => toString q

/-- Rendering of array elements for `inspect`. -/
def inspectElems : List Value → String
  | [] => ""
  | [v] => inspect v
  | v :: rest => inspect v ++ ", " ++ inspectElems rest

/-- Rendering of object fields for `inspect`. -/
def inspectFields : List (String × Value) → String
  | [] => ""
  | [(k, v)] => k ++ ": " ++ inspect v
  | (k, v) :: rest => k ++ ": " ++ inspect v ++ ", " ++ inspectFields rest

end

/-- Whitespace skipped by `parseInt` / `parseFloat`: space, tab, line
feed, vertical tab, form feed, carriage return. -/
def isJsWhitespace (c : Char) : Bool :=
  [' ', '\t', '\n', '\x0b', '\x0c', '\r'].contains c

/-- Decimal digit value of a character, if any (code points 48-57). -/
def digitVal (c : Char) : Option Nat :=
  let n := c.toNat
  if 48 ≤ n ∧ n ≤ 57 then some (n - 48) else none

/-- Hexadecimal digit value of a character, if any: `0`-`9` are code
points 48-57, `a`-`f` are 97-102, `A`-`F` are 65-70. -/
def hexDigitVal (c : Char) : Option Nat :=
  let n := c.toNat
  if 48 ≤ n ∧ n ≤ 57 then some (n - 48)
  else if 97 ≤ n ∧ n ≤ 102 then some (n - 87)
  else if 65 ≤ n ∧ n ≤ 70 then some (n - 55)
  else none

/-- Consumes the longest prefix of decimal digits, returning the
accumulated value, the count of digits consumed, and the rest. -/
def takeDigits : List Char → Nat → Nat → Nat × Nat × List Char
  | [], acc, cnt => (acc, cnt, [])
  | c :: rest, acc, cnt =>
    match digitVal c with
    | some d => takeDigits rest (acc * 10 + d) (cnt + 1)
    | none => (acc, cnt, c :: rest)

/-- Consumes the longest prefix of hexadecimal digits. -/
def takeHexDigits : List Char → Nat → Nat → Nat × Nat × List Char
  | [], acc, cnt => (acc, cnt, [])
  | c :: rest, acc, cnt =>
    match hexDigitVal c with
    | some d => takeHexDigits rest (acc * 16 + d) (cnt + 1)
    | none => (acc, cnt, c :: rest)

/-- Splits an optional leading sign (`true` = negative). -/
def splitSign : List Char → Bool × List Char
  | '-' :: rest => (true, rest)
  | '+' :: rest => (false, rest)
  | cs => (false, cs)

/-- Models `Number.parseInt(s)` (no radix argument): skip whitespace,
optional sign, then either a `0x`/`0X` hexadecimal literal or the
longest decimal digit prefix; no digits yields `NaN`.  The numeric
value is exact (double rounding of very long digit strings is not
modelled). -/
def parseInt (s : String) : JSNum :=
  let cs := s.data.dropWhile isJsWhitespace
  let (neg, cs) := splitSign cs
  match cs with
  | '0' :: x :: rest =>
    if x == 'x' || x == 'X' then
      let (v, cnt, _) := takeHexDigits rest 0 0
      if cnt == 0 then .nan
      else .fin (if neg then -(v : Rat) else (v : Rat))
    else
      let (v, cnt, _) := takeDigits ('0' :: x :: rest) 0 0
      if cnt == 0 then .nan
      else .fin (if neg then -(v : Rat) else (v : Rat))
  | cs =>
    let (v, cnt, _) := takeDigits cs 0 0
    if cnt == 0 then .nan
    else .fin (if neg then -(v : Rat) else (v : Rat))

/-- Models `Number.parseFloat(s)`: skip whitespace, optional sign, then
the longest prefix that is `Infinity` or a decimal literal
(`digits [. digits] [e[sign]digits]`); no digits yields `NaN`. -/
def parseFloat (s : String) : JSNum :=
  let cs := s.data.dropWhile isJsWhitespace
  let (neg, cs) := splitSign cs
  if "Infinity".data.isPrefixOf cs then .inf neg
  else
    let (ip, icnt, cs1) := takeDigits cs 0 0
    let (fp, fcnt, cs2) :=
      match cs1 with
      | '.' :: rest => takeDigits rest 0 0
      | other => (0, 0, other)
    if icnt == 0 && fcnt == 0 then .nan
    else
      let mantissa : Rat := (ip : Rat) + (fp : Rat) / ((10 : Rat) ^ fcnt)
      let exp : Option Int :=
        match cs2 with
        | e :: rest =>
          if e == 'e' || e == 'E' then
            let (eneg, rest2) := splitSign rest
            let (ev, ecnt, _) := takeDigits rest2 0 0
            if ecnt == 0 then none
            else some (if eneg then -(ev : Int) else (ev : Int))
          else none
        | [] => none
      let q : Rat :=
        match exp with
        | none => mantissa
        | some e =>
          if 0 ≤ e then mantissa * (10 : Rat) ^ e.toNat
          else mantissa / (10 : Rat) ^ (-e).toNat
      .fin (if neg then -q else q)

/-- A thrown JavaScript error.  `referenceError` is the spec's
`MissingKeyError`; `typeError` is the spec's `TypeMismatchError`
(and, at construction time, `InvalidInputError`). -/
inductive JSError where
  | referenceError (msg : String)
  | typeError (msg : String)
deriving DecidableEq

/-- The message template thrown by `DataPicker.get` for a missing key. -/
def missingKeyMsg (key name : String) : String :=
  "Missing key " ++ key ++ " in " ++ name

/-- The message template thrown by every typed getter on a type
mismatch: `Invalid value for KEY in NAME (expected TYPE, got: VALUE)`. -/
def invalidValueMsg (key name expected : String) (v : Value) : String :=
  "Invalid value for " ++ key ++ " in " ++ name ++ " (expected "
    ++ expected ++ ", got: " ++ inspect v ++ ")"

/-- The `DataPicker` class: a name (path label used in error messages)
and the wrapped data object, modelled by its string-keyed fields. -/
structure DataPicker where
  name : String
  data : List (String × Value)

/-- The runtime constructor check: `typeof data !== 'object'`.
`DataPicker.make name data` models `new DataPicker(name, data)` for an
arbitrary runtime value `data`; the stored object is modelled by its
own string-keyed fields. -/
def DataPicker.make (name : String) (data : Value) : Except JSError DataPicker :=
  if !(jsTypeof data == "object") then
    .error (.typeError ("Invalid data (expected object, got "
      ++ jsTypeof data ++ ": " ++ inspect data ++ ")"))
  else
    .ok ⟨name, data.ownFields⟩

/-- `has(key)`: `Object.prototype.hasOwnProperty.call(this.data, key)`. -/
def DataPicker.has (p : DataPicker) (key : String) : Bool :=
  p.data.any (fun kv => kv.1 == key)

/-- Property read `this.data[key]` (yields `undefined` when absent). -/
def lookupKey (data : List (String × Value)) (key : String) : Value :=
  match data.find? (fun kv => kv.1 == key) with
  | some kv => kv.2
  | none => .undefined

/-- `get(key, fallback?)`: if `has(key)`, the stored value; else the
fallback if it is not `undefined`; else a `ReferenceError`.  An omitted
fallback argument binds to `undefined`, hence `fallback.getD .undefined`. -/
def DataPicker.get (p : DataPicker) (key : String) (fallback : Option Value) :
    Except JSError Value :=
  if p.has key then
    .ok (lookupKey p.data key)
  else
    let fb := (fallback.getD .undefined)
    if !fb.isUndefined then
      .ok fb
    else
      .error (.referenceError (missingKeyMsg key p.name))

/-- `getString(key, fallback?)`: raw lookup, then a `TypeError` unless
`typeof value === 'string'`. -/
def DataPicker.getString (p : DataPicker) (key : String) (fallback : Option Value) :
    Except JSError String :=
  match p.get key fallback with
  | .error e => .error e
  | .ok value =>
    match value with
    | .str s => .ok s
    | v => .error (.typeError (invalidValueMsg key p.name "string" v))

/-- `getStringOptional(key)`: `undefined` when the key is absent,
otherwise `getString(key)`. -/
def DataPicker.getStringOptional (p : DataPicker) (key : String) :
    Except JSError (Option String) :=
  if !p.has key then
    .ok none
  else
    match p.getString key none with
    | .error e => .error e
    | .ok s => .ok (some s)

/-- The string-parse step of `getNumber`: a string containing `'.'` is
parsed with `parseFloat`, any other string with `parseInt`; non-strings
pass through unchanged. -/
def numberParseStep : Value → Value
  | .str s => .num (if s.contains '.' then parseFloat s else parseInt s)
  | v => v

/-- `getNumber(key, fallback?)`: raw lookup, the string-parse step,
then a `TypeError` unless the value is a finite number. -/
def DataPicker.getNumber (p : DataPicker) (key : String) (fallback : Option Value) :
    Except JSError JSNum :=
  match p.get key fallback with
  | .error e => .error e
  | .ok value0 =>
    let value := numberParseStep value0
    match value with
    | .num n =>
      if n.isFinite then .ok n
      else .error (.typeError (invalidValueMsg key p.name "number" (.num n)))
    | v => .error (.typeError (invalidValueMsg key p.name "number" v))

/-- `getNumberOptional(key)`: `undefined` when the key is absent,
otherwise `getNumber(key)`. -/
def DataPicker.getNumberOptional (p : DataPicker) (key : String) :
    Except JSError (Option JSNum) :=
  if !p.has key then
    .ok none
  else
    match p.getNumber key none with
    | .error e => .error e
    | .ok n => .ok (some n)

/-- `getBoolean(key, fallback?)`: raw lookup, then the value itself if
it is a boolean, otherwise `!!value`. -/
def DataPicker.getBoolean (p : DataPicker) (key : String) (fallback : Option Value) :
    Except JSError Bool :=
  match p.get key fallback with
  | .error e => .error e
  | .ok value =>
    match value with
    | .bool b => .ok b
    | v => .ok v.truthy

/-- `getBooleanOptional(key)`: `undefined` when the key is absent,
otherwise `getBoolean(key)`. -/
def DataPicker.getBooleanOptional (p : DataPicker) (key : String) :
    Except JSError (Option Bool) :=
  if !p.has key then
    .ok none
  else
    match p.getBoolean key none with
    | .error e => .error e
    | .ok b => .ok (some b)

/-- `getDate(key, fallback?)`: raw lookup; a `Date` instance is
returned as-is; a string is given to `Date.parse` and accepted when the
result is finite and strictly positive; a finite strictly positive
number is accepted as a timestamp; everything else is a `TypeError`.
`Date.parse` is implementation-defined beyond the ISO format, so the
embedding abstracts over it as the parameter `dateParse`. -/
def DataPicker.getDate (dateParse : String → JSNum) (p : DataPicker)
    (key : String) (fallback : Option Value) : Except JSError Value :=
  match p.get key fallback with
  | .error e => .error e
  | .ok value =>
    match value with
    | .date t => .ok (.date t)
    | .str s =>
      let parsed := dateParse s
      if parsed.isFinite && parsed.gtZero then
        .ok (.date parsed)
      else
        .error (.typeError (invalidValueMsg key p.name "date" (.str s)))
    | .num n =>
      if n.isFinite && n.gtZero then
        .ok (.date n)
      else
        .error (.typeError (invalidValueMsg key p.name "date" (.num n)))
    | v => .error (.typeError (invalidValueMsg key p.name "date" v))

/-- `getDateOptional(key)`: `undefined` when the key is absent,
otherwise `getDate(key)`. -/
def DataPicker.getDateOptional (dateParse : String → JSNum) (p : DataPicker)
    (key : String) : Except JSError (Option Value) :=
  if !p.has key then
    .ok none
  else
    match p.getDate dateParse key none with
    | .error e => .error e
    | .ok d => .ok (some d)

/-- `getArray(key, fallback?)`: raw lookup, then a `TypeError` unless
`Array.isArray(value)`. -/
def DataPicker.getArray (p : DataPicker) (key : String) (fallback : Option Value) :
    Except JSError (List Value) :=
  match p.get key fallback with
  | .error e => .error e
  | .ok value =>
    match value with
    | .arr elems => .ok elems
    | v => .error (.typeError (invalidValueMsg key p.name "array" v))

/-- The label given to the child accessor for element `i` of key `key`:
`name + "." + key + "[" + i + "]"`. -/
def childArrayLabel (name key : String) (i : Nat) : String :=
  name ++ "." ++ key ++ "[" ++ toString i ++ "]"

/-- The element-mapping step of `getObjectArray`: each element must
satisfy `typeof item === 'object' && item !== null`, and is wrapped in
`new DataPicker(name.key[i], item)`; the first offending element throws
a `TypeError` whose message renders the whole array `value`. -/
def wrapItems (name key : String) (value : List Value) :
    Nat → List Value → Except JSError (List DataPicker)
  | _, [] => .ok []
  | i, item :: rest =>
    if jsTypeof item == "object" && !item.isNull then
      match wrapItems name key value (i + 1) rest with
      | .error e => .error e
      | .ok children =>
        .ok (⟨childArrayLabel name key i, item.ownFields⟩ :: children)
    else
      .error (.typeError (invalidValueMsg key name "object" (.arr value)))

/-- `getObjectArray(key, fallback?)`: `getArray`, then the
element-mapping step. -/
def DataPicker.getObjectArray (p : DataPicker) (key : String)
    (fallback : Option Value) : Except JSError (List DataPicker) :=
  match p.getArray key fallback with
  | .error e => .error e
  | .ok elems => wrapItems p.name key elems 0 elems

/-- `getObject(key, fallback?)`: raw lookup, then a `TypeError` unless
`typeof value === 'object' && value !== null`; wraps the value in
`new DataPicker(name + "." + key, value)`. -/
def DataPicker.getObject (p : DataPicker) (key : String) (fallback : Option Value) :
    Except JSError DataPicker :=
  match p.get key fallback with
  | .error e => .error e
  | .ok value =>
    if jsTypeof value == "object" && !value.isNull then
      .ok ⟨p.name ++ "." ++ key, value.ownFields⟩
    else
      .error (.typeError (invalidValueMsg key p.name "object" value))

/-- `getRawObject(key, fallback?)`: same check as `getObject` but
returns the value itself. -/
def DataPicker.getRawObject (p : DataPicker) (key : String) (fallback : Option Value) :
    Except JSError Value :=
  match p.get key fallback with
  | .error e => .error e
  | .ok value =>
    if jsTypeof value == "object" && !value.isNull then
      .ok value
    else
      .error (.typeError (invalidValueMsg key p.name "object" value))

/-- `raw()`: the wrapped data object. -/
def DataPicker.raw (p : DataPicker) : List (String × Value) :=
  p.data

/-! ### Helper lemmas about the raw lookup -/

theorem get_ok_of_has (p : DataPicker) (key : String) (fallback : Option Value)
    (h : p.has key = true) : p.get key fallback = .ok (lookupKey p.data key) := by
  simp [DataPicker.get, h]

theorem get_ok_of_fallback (p : DataPicker) (key : String) (F : Value)
    (h : p.has key = false) (hF : F.isUndefined = false) :
    p.get key (some F) = .ok F := by
  simp [DataPicker.get, h, hF]

theorem get_error_of_missing (p : DataPicker) (key : String) (fallback : Option Value)
    (h : p.has key = false) (hF : (fallback.getD .undefined).isUndefined = true) :
    p.get key fallback = .error (.referenceError (missingKeyMsg key p.name)) := by
  simp [DataPicker.get, h, hF]

theorem get_error_eq (p : DataPicker) (key : String) (fallback : Option Value)
    (e : JSError) (h : p.get key fallback = .error e) :
    e = .referenceError (missingKeyMsg key p.name) ∧ p.has key = false := by
  by_cases hk : p.has key
  · simp [DataPicker.get, hk] at h
  · rw [DataPicker.get, if_neg (by simp [hk])] at h
    by_cases hf : ((fallback.getD .undefined).isUndefined : Bool)
    · simp [hf] at h
      exact ⟨h.symm, by simp [hk]⟩
    · simp [Bool.not_eq_true] at hf
      simp [hf] at h

/-- C1: for every key and fallback, the shared raw lookup `get` follows the
three-step policy: a present key's stored value is returned whatever it is
(fallback ignored, even for `null`, `undefined`, `false`, `0` or `""`);
otherwise a supplied (non-`undefined`) fallback is returned; otherwise the
call fails with the `MissingKeyError` naming the key and the label. -/
theorem C1_raw_lookup_policy (p : DataPicker) (key : String) (fallback : Option Value) :
    (p.has key = true → p.get key fallback = .ok (lookupKey p.data key)) ∧
    (p.has key = false → ∀ F, fallback = some F → F.isUndefined = false →
      p.get key fallback = .ok F) ∧
    (p.has key = false → (fallback.getD .undefined).isUndefined = true →
      p.get key fallback = .error (.referenceError (missingKeyMsg key p.name))) := by
  refine ⟨fun h => get_ok_of_has p key fallback h, ?_, ?_⟩
  · rintro h F rfl hF
    exact get_ok_of_fallback p key F h hF
  · exact fun h hF => get_error_of_missing p key fallback h hF

/-- Witness for C1: a present key holding the empty string is returned even
though a fallback was supplied, and a missing key without fallback fails. -/
theorem C1_witness :
    DataPicker.get ⟨"env", [("k", .str "")]⟩ "k" (some (.bool true)) = .ok (.str "") ∧
    DataPicker.get ⟨"env", []⟩ "k" none
      = .error (.referenceError (missingKeyMsg "k" "env")) := by
  constructor
  · have h := (C1_raw_lookup_policy ⟨"env", [("k", .str "")]⟩ "k" (some (.bool true))).1
      (by decide)
    exact h.trans (by with_unfolding_all rfl)
  · exact (C1_raw_lookup_policy ⟨"env", []⟩ "k" none).2.2 (by decide) (by decide)

/-- C2 (code evaluated at the failing input): the constructor check is
`typeof data !== 'object'`, and `typeof null` is `'object'` in JavaScript,
so `new DataPicker('x', null)` does not throw. -/
theorem C2_null_source_accepted :
    DataPicker.make "x" .null = .ok ⟨"x", []⟩ ∧
    DataPicker.make "x" (.str "s")
      = .error (.typeError "Invalid data (expected object, got string: 's')") := by
  constructor <;> with_unfolding_all rfl

/-- C10: the sentinel for an unset fallback is `undefined` itself: passing
`undefined` as the fallback behaves exactly like passing no fallback (the
call fails with `MissingKeyError` for an absent key), `undefined` can never
be delivered as a fallback value, and a present key storing `undefined` is
still returned by the raw lookup. -/
theorem C10_undefined_fallback_sentinel (p : DataPicker) (key : String) :
    (p.get key (some .undefined) = p.get key none) ∧
    (p.has key = false →
      p.get key (some .undefined)
        = .error (.referenceError (missingKeyMsg key p.name))) ∧
    (∀ fallback : Option Value, p.has key = false →
      p.get key fallback ≠ .ok Value.undefined) ∧
    (∀ fallback : Option Value, p.has key = true →
      lookupKey p.data key = .undefined → p.get key fallback = .ok .undefined) := by
  refine ⟨rfl, ?_, ?_, ?_⟩
  · intro h
    exact get_error_of_missing p key (some .undefined) h (by decide)
  · intro fallback h hok
    by_cases hf : (fallback.getD Value.undefined).isUndefined = true
    · rw [get_error_of_missing p key fallback h hf] at hok
      exact Except.noConfusion hok
    · have hf' : (fallback.getD Value.undefined).isUndefined = false := by simpa using hf
      rw [DataPicker.get, if_neg (by simp [h])] at hok
      simp only [hf', Bool.not_false, if_true, Except.ok.injEq] at hok
      rw [hok] at hf'
      simp [Value.isUndefined] at hf'
  · intro fallback h hl
    rw [get_ok_of_has p key fallback h, hl]

/-- Witness for C10: on an empty source, an explicit `undefined` fallback
still yields the missing-key failure, and a stored `undefined` is returned. -/
theorem C10_witness :
    DataPicker.get ⟨"env", []⟩ "k" (some .undefined)
      = .error (.referenceError (missingKeyMsg "k" "env")) ∧
    DataPicker.get ⟨"env", [("k", .undefined)]⟩ "k" (some (.str "fb")) = .ok .undefined := by
  constructor
  · exact (C10_undefined_fallback_sentinel ⟨"env", []⟩ "k").2.1 (by decide)
  · exact (C10_undefined_fallback_sentinel ⟨"env", [("k", .undefined)]⟩ "k").2.2.2
      (some (.str "fb")) (by decide) (by with_unfolding_all rfl)

/-- The boolean coercion applied by `getBoolean` to a resolved value. -/
def booleanCoerce : Value → Bool
  | .bool b => b
  | v => v.truthy

/-- C5: `getBoolean` never fails beyond the raw lookup: a stored boolean is
returned unchanged, every other resolved value is coerced by standard
truthiness (`""`, `0`, `NaN`, `null`, `undefined` are false, everything
else true), and the only possible error is the raw lookup's
`MissingKeyError`. -/
theorem C5_getBoolean_total (p : DataPicker) (key : String) (fallback : Option Value) :
    (p.getBoolean key fallback = (p.get key fallback).map booleanCoerce) ∧
    (∀ b, p.get key fallback = .ok (.bool b) → p.getBoolean key fallback = .ok b) ∧
    (∀ v, p.get key fallback = .ok v → p.getBoolean key fallback = .ok (booleanCoerce v)) ∧
    (∀ e, p.getBoolean key fallback = .error e →
      e = .referenceError (missingKeyMsg key p.name) ∧ p.has key = false) ∧
    (booleanCoerce (.str "") = false ∧ booleanCoerce (.num (.fin 0)) = false ∧
      booleanCoerce .null = false ∧ booleanCoerce .undefined = false ∧
      booleanCoerce (.num .nan) = false ∧ booleanCoerce (.bool false) = false) ∧
    (∀ s, s ≠ "" → booleanCoerce (.str s) = true) ∧
    (∀ q : Rat, q ≠ 0 → booleanCoerce (.num (.fin q)) = true) ∧
    (∀ elems, booleanCoerce (.arr elems) = true) ∧
    (∀ fields, booleanCoerce (.obj fields) = true) := by
  have hmap : p.getBoolean key fallback = (p.get key fallback).map booleanCoerce := by
    rw [DataPicker.getBoolean]
    cases hg : p.get key fallback with
    | error e => simp [Except.map]
    | ok v => cases v <;> simp [Except.map, booleanCoerce, Value.truthy]
  refine ⟨hmap, ?_, ?_, ?_, ?_, ?_, ?_, ?_, ?_⟩
  · intro b hg
    rw [hmap, hg]
    simp [Except.map, booleanCoerce]
  · intro v hg
    rw [hmap, hg]
    simp [Except.map]
  · intro e he
    rw [hmap] at he
    cases hg : p.get key fallback with
    | error e' =>
      rw [hg] at he
      simp [Except.map] at he
      rcases get_error_eq p key fallback e' hg with ⟨h1, h2⟩
      exact ⟨he ▸ h1, h2⟩
    | ok v =>
      rw [hg] at he
      simp [Except.map] at he
  · exact ⟨by decide, by decide, by decide, by decide, by decide, by decide⟩
  · intro s hs
    simp [booleanCoerce, Value.truthy, hs]
  · intro q hq
    simp [booleanCoerce, Value.truthy, hq]
  · intro elems
    simp [booleanCoerce, Value.truthy]
  · intro fields
    simp [booleanCoerce, Value.truthy]

/-- Witness for C5: `\x7bk: 0\x7d` coerces to `false`, `\x7bk: "x"\x7d` to `true`,
a stored `false` is returned unchanged, and an absent key fails with the
missing-key error only. -/
theorem C5_witness :
    DataPicker.getBoolean ⟨"env", [("k", .num (.fin 0))]⟩ "k" none = .ok false ∧
    DataPicker.getBoolean ⟨"env", [("k", .str "x")]⟩ "k" none = .ok true ∧
    DataPicker.getBoolean ⟨"env", [("k", .bool false)]⟩ "k" none = .ok false := by
  refine ⟨?_, ?_, ?_⟩
  · have h := (C5_getBoolean_total ⟨"env", [("k", .num (.fin 0))]⟩ "k" none).2.2.1
      (.num (.fin 0)) (by with_unfolding_all rfl)
    exact h.trans (by with_unfolding_all rfl)
  · have h := (C5_getBoolean_total ⟨"env", [("k", .str "x")]⟩ "k" none).2.2.1
      (.str "x") (by with_unfolding_all rfl)
    exact h.trans (by with_unfolding_all rfl)
  · exact (C5_getBoolean_total ⟨"env", [("k", .bool false)]⟩ "k" none).2.1
      false (by with_unfolding_all rfl)

/-- C8: every optional getter variant returns `undefined` (modelled as
`none`) without error when the key is absent, and otherwise delegates to
the corresponding non-optional getter, so a present value that fails type
validation still raises the `TypeMismatchError`. -/
theorem C8_optional_variants (dateParse : String → JSNum) (p : DataPicker) (key : String) :
    (p.has key = false →
      p.getStringOptional key = .ok none ∧
      p.getNumberOptional key = .ok none ∧
      p.getBooleanOptional key = .ok none ∧
      p.getDateOptional dateParse key = .ok none) ∧
    (p.has key = true →
      p.getStringOptional key = (p.getString key none).map some ∧
      p.getNumberOptional key = (p.getNumber key none).map some ∧
      p.getBooleanOptional key = (p.getBoolean key none).map some ∧
      p.getDateOptional dateParse key = (p.getDate dateParse key none).map some) ∧
    (p.has key = true → ∀ e,
      (p.getString key none = .error e → p.getStringOptional key = .error e) ∧
      (p.getNumber key none = .error e → p.getNumberOptional key = .error e) ∧
      (p.getBoolean key none = .error e → p.getBooleanOptional key = .error e) ∧
      (p.getDate dateParse key none = .error e →
        p.getDateOptional dateParse key = .error e)) := by
  refine ⟨?_, ?_, ?_⟩
  · intro h
    refine ⟨?_, ?_, ?_, ?_⟩ <;>
      simp [DataPicker.getStringOptional, DataPicker.getNumberOptional,
        DataPicker.getBooleanOptional, DataPicker.getDateOptional, h]
  · intro h
    refine ⟨?_, ?_, ?_, ?_⟩
    · rw [DataPicker.getStringOptional, if_neg (by simp [h])]
      cases hg : p.getString key none <;> simp [Except.map]
    · rw [DataPicker.getNumberOptional, if_neg (by simp [h])]
      cases hg : p.getNumber key none <;> simp [Except.map]
    · rw [DataPicker.getBooleanOptional, if_neg (by simp [h])]
      cases hg : p.getBoolean key none <;> simp [Except.map]
    · rw [DataPicker.getDateOptional, if_neg (by simp [h])]
      cases hg : p.getDate dateParse key none <;> simp [Except.map]
  · intro h e
    refine ⟨?_, ?_, ?_, ?_⟩ <;> intro he
    · rw [DataPicker.getStringOptional, if_neg (by simp [h]), he]
    · rw [DataPicker.getNumberOptional, if_neg (by simp [h]), he]
    · rw [DataPicker.getBooleanOptional, if_neg (by simp [h]), he]
    · rw [DataPicker.getDateOptional, if_neg (by simp [h]), he]

/-- Witness for C8: on an empty source every optional getter returns the
absent value, and a present non-string value makes `getStringOptional`
fail with the type-mismatch error rather than return the absent value. -/
theorem C8_witness :
    DataPicker.getStringOptional ⟨"env", []⟩ "k" = .ok none ∧
    DataPicker.getNumberOptional ⟨"env", []⟩ "k" = .ok none ∧
    DataPicker.getStringOptional ⟨"env", [("k", .num (.fin 7))]⟩ "k"
      = .error (.typeError (invalidValueMsg "k" "env" "string" (.num (.fin 7)))) := by
  refine ⟨?_, ?_, ?_⟩
  · exact ((C8_optional_variants (fun _ => .nan) ⟨"env", []⟩ "k").1 (by decide)).1
  · exact ((C8_optional_variants (fun _ => .nan) ⟨"env", []⟩ "k").1 (by decide)).2.1
  · exact (((C8_optional_variants (fun _ => .nan) ⟨"env", [("k", .num (.fin 7))]⟩ "k").2.2
      (by decide) (.typeError (invalidValueMsg "k" "env" "string" (.num (.fin 7))))).1
      (by with_unfolding_all rfl))

/-- C9: a fallback substituted for an absent key flows through exactly the
same coercion and validation pipeline as a stored value: every typed
getter behaves on `(absent key, fallback F)` exactly as it does on a
source that stores `F` at that key (under the same label); in particular
`getNumber` with the string fallback `"5"` returns the number `5`, and a
fallback failing validation raises the `TypeMismatchError`. -/
theorem C9_fallback_coerced (p : DataPicker) (key : String) (F : Value)
    (h : p.has key = false) (hF : F.isUndefined = false) :
    (∀ dateParse,
      p.getString key (some F) = DataPicker.getString ⟨p.name, [(key, F)]⟩ key none ∧
      p.getNumber key (some F) = DataPicker.getNumber ⟨p.name, [(key, F)]⟩ key none ∧
      p.getBoolean key (some F) = DataPicker.getBoolean ⟨p.name, [(key, F)]⟩ key none ∧
      p.getDate dateParse key (some F)
        = DataPicker.getDate dateParse ⟨p.name, [(key, F)]⟩ key none ∧
      p.getArray key (some F) = DataPicker.getArray ⟨p.name, [(key, F)]⟩ key none ∧
      p.getObject key (some F) = DataPicker.getObject ⟨p.name, [(key, F)]⟩ key none ∧
      p.getRawObject key (some F)
        = DataPicker.getRawObject ⟨p.name, [(key, F)]⟩ key none ∧
      p.getObjectArray key (some F)
        = DataPicker.getObjectArray ⟨p.name, [(key, F)]⟩ key none) ∧
    DataPicker.getNumber ⟨"env", ([] : List (String × Value))⟩ "k" (some (.str "5"))
      = .ok (.fin 5) ∧
    DataPicker.getNumber ⟨"env", ([] : List (String × Value))⟩ "k" (some (.str "abc"))
      = .error (.typeError (invalidValueMsg "k" "env" "number" (.num .nan))) := by
  have hq : DataPicker.has ⟨p.name, [(key, F)]⟩ key = true := by
    simp [DataPicker.has]
  have hg : p.get key (some F) = .ok F := get_ok_of_fallback p key F h hF
  have hg' : DataPicker.get ⟨p.name, [(key, F)]⟩ key none = .ok F := by
    rw [get_ok_of_has _ key none hq]
    simp [lookupKey]
  refine ⟨?_, by with_unfolding_all rfl, by with_unfolding_all rfl⟩
  intro dateParse
  refine ⟨?_, ?_, ?_, ?_, ?_, ?_, ?_, ?_⟩
  · rw [DataPicker.getString, DataPicker.getString, hg, hg']
  · rw [DataPicker.getNumber, DataPicker.getNumber, hg, hg']
  · rw [DataPicker.getBoolean, DataPicker.getBoolean, hg, hg']
  · rw [DataPicker.getDate, DataPicker.getDate, hg, hg']
  · rw [DataPicker.getArray, DataPicker.getArray, hg, hg']
  · rw [DataPicker.getObject, DataPicker.getObject, hg, hg']
  · rw [DataPicker.getRawObject, DataPicker.getRawObject, hg, hg']
  · rw [DataPicker.getObjectArray]
    rw [DataPicker.getObjectArray]
    rw [DataPicker.getArray, DataPicker.getArray, hg, hg']

/-- Witness for C9: with key `k` absent, `getNumber("k", "5")` equals
`getNumber` on a source storing `"5"` at `k`, and both return `5`. -/
theorem C9_witness :
    DataPicker.getNumber ⟨"env", []⟩ "k" (some (.str "5"))
      = DataPicker.getNumber ⟨"env", [("k", .str "5")]⟩ "k" none ∧
    DataPicker.getNumber ⟨"env", []⟩ "k" (some (.str "5")) = .ok (.fin 5) := by
  constructor
  · exact (((C9_fallback_coerced ⟨"env", []⟩ "k" (.str "5") (by decide)
      (by decide)).1 (fun _ => .nan)).2.1)
  · exact (C9_fallback_coerced ⟨"env", []⟩ "k" (.str "5") (by decide) (by decide)).2.1

/-- C3: `getNumber` resolves the value by raw lookup, parses a string
containing a decimal point with `parseFloat` and any other string with
`parseInt`, and fails with `TypeMismatchError` exactly when the value
after this optional parse step is not a finite number; `"3.14"` yields
`3.14`, `"42"` yields `42`, `"abc"` fails. -/
theorem C3_getNumber_parse :
    (∀ (p : DataPicker) (key : String) (fallback : Option Value) (s : String),
      p.get key fallback = .ok (.str s) → s.contains '.' = true →
      ((parseFloat s).isFinite = true → p.getNumber key fallback = .ok (parseFloat s)) ∧
      ((parseFloat s).isFinite = false → p.getNumber key fallback
        = .error (.typeError (invalidValueMsg key p.name "number" (.num (parseFloat s)))))) ∧
    (∀ (p : DataPicker) (key : String) (fallback : Option Value) (s : String),
      p.get key fallback = .ok (.str s) → s.contains '.' = false →
      ((parseInt s).isFinite = true → p.getNumber key fallback = .ok (parseInt s)) ∧
      ((parseInt s).isFinite = false → p.getNumber key fallback
        = .error (.typeError (invalidValueMsg key p.name "number" (.num (parseInt s)))))) ∧
    (∀ (p : DataPicker) (key : String) (fallback : Option Value) (n : JSNum),
      p.get key fallback = .ok (.num n) →
      (n.isFinite = true → p.getNumber key fallback = .ok n) ∧
      (n.isFinite = false → p.getNumber key fallback
        = .error (.typeError (invalidValueMsg key p.name "number" (.num n))))) ∧
    (∀ (p : DataPicker) (key : String) (fallback : Option Value) (v : Value),
      p.get key fallback = .ok v → (∀ s, v ≠ .str s) → (∀ n, v ≠ .num n) →
      p.getNumber key fallback
        = .error (.typeError (invalidValueMsg key p.name "number" v))) ∧
    (DataPicker.getNumber ⟨"env", [("k", .str "3.14")]⟩ "k" none
      = .ok (.fin (3.14 : Rat)) ∧
    DataPicker.getNumber ⟨"env", [("k", .str "42")]⟩ "k" none = .ok (.fin 42) ∧
    DataPicker.getNumber ⟨"env", [("k", .str "abc")]⟩ "k" none
      = .error (.typeError (invalidValueMsg "k" "env" "number" (.num .nan)))) := by
  refine ⟨?_, ?_, ?_, ?_, by with_unfolding_all rfl, by with_unfolding_all rfl,
    by with_unfolding_all rfl⟩
  · intro p key fallback s hg hc
    rw [DataPicker.getNumber, hg]
    simp only [numberParseStep, hc, if_true]
    constructor
    · intro hfin
      simp [hfin]
    · intro hfin
      simp [hfin]
  · intro p key fallback s hg hc
    rw [DataPicker.getNumber, hg]
    simp only [numberParseStep, hc, Bool.false_eq_true, if_false]
    constructor
    · intro hfin
      simp [hfin]
    · intro hfin
      simp [hfin]
  · intro p key fallback n hg
    rw [DataPicker.getNumber, hg]
    constructor
    · intro hfin
      simp [numberParseStep, hfin]
    · intro hfin
      simp [numberParseStep, hfin]
  · intro p key fallback v hg hs hn
    rw [DataPicker.getNumber, hg]
    cases v with
    | str s => exact absurd rfl (hs s)
    | num n => exact absurd rfl (hn n)
    | undefined => simp [numberParseStep]
    | null => simp [numberParseStep]
    | bool b => simp [numberParseStep]
    | arr elems => simp [numberParseStep]
    | obj fields => simp [numberParseStep]
    | date t => simp [numberParseStep]

/-- Witness for C3: the dotted string `"3.14"` goes through `parseFloat`
and yields `3.14`; the dotless `"42"` goes through `parseInt`. -/
theorem C3_witness :
    DataPicker.getNumber ⟨"env", [("k", .str "3.14")]⟩ "k" none
      = .ok (parseFloat "3.14") ∧
    DataPicker.getNumber ⟨"env", [("k", .str "42")]⟩ "k" none = .ok (parseInt "42") := by
  constructor
  · exact (C3_getNumber_parse.1 ⟨"env", [("k", .str "3.14")]⟩ "k" none "3.14"
      (by with_unfolding_all rfl) (by with_unfolding_all rfl)).1 (by with_unfolding_all rfl)
  · exact (C3_getNumber_parse.2.1 ⟨"env", [("k", .str "42")]⟩ "k" none "42"
      (by with_unfolding_all rfl) (by with_unfolding_all rfl)).1 (by with_unfolding_all rfl)

/-- C4: `getDate` checks the resolved value in order: a `Date` instance is
returned as-is; a string is parsed as a date and returned only when the
parse result is finite and strictly positive; a finite strictly positive
number is turned into a date; every other value — including `0`, negative
numbers and unparsable strings — fails with `TypeMismatchError`.  The
statement holds for every `Date.parse` implementation `dateParse`. -/
theorem C4_getDate_order :
    (∀ (dateParse : String → JSNum) (p : DataPicker) (key : String)
      (fallback : Option Value),
      (∀ t, p.get key fallback = .ok (.date t) →
        p.getDate dateParse key fallback = .ok (.date t)) ∧
      (∀ s, p.get key fallback = .ok (.str s) →
        (((dateParse s).isFinite && (dateParse s).gtZero) = true →
          p.getDate dateParse key fallback = .ok (.date (dateParse s))) ∧
        (((dateParse s).isFinite && (dateParse s).gtZero) = false →
          p.getDate dateParse key fallback
            = .error (.typeError (invalidValueMsg key p.name "date" (.str s))))) ∧
      (∀ n, p.get key fallback = .ok (.num n) →
        ((n.isFinite && n.gtZero) = true →
          p.getDate dateParse key fallback = .ok (.date n)) ∧
        ((n.isFinite && n.gtZero) = false →
          p.getDate dateParse key fallback
            = .error (.typeError (invalidValueMsg key p.name "date" (.num n))))) ∧
      (∀ v, p.get key fallback = .ok v →
        (∀ t, v ≠ .date t) → (∀ s, v ≠ .str s) → (∀ n, v ≠ .num n) →
        p.getDate dateParse key fallback
          = .error (.typeError (invalidValueMsg key p.name "date" v)))) ∧
    (∀ dateParse, DataPicker.getDate dateParse ⟨"env", [("k", .num (.fin 0))]⟩ "k" none
      = .error (.typeError (invalidValueMsg "k" "env" "date" (.num (.fin 0))))) ∧
    (∀ dateParse, DataPicker.getDate dateParse ⟨"env", [("k", .num (.fin 1000))]⟩ "k" none
      = .ok (.date (.fin 1000))) ∧
    (∀ dateParse, dateParse "not-a-date" = .nan →
      DataPicker.getDate dateParse ⟨"env", [("k", .str "not-a-date")]⟩ "k" none
        = .error (.typeError (invalidValueMsg "k" "env" "date" (.str "not-a-date")))) := by
  have main : ∀ (dateParse : String → JSNum) (p : DataPicker) (key : String)
      (fallback : Option Value),
      (∀ t, p.get key fallback = .ok (.date t) →
        p.getDate dateParse key fallback = .ok (.date t)) ∧
      (∀ s, p.get key fallback = .ok (.str s) →
        (((dateParse s).isFinite && (dateParse s).gtZero) = true →
          p.getDate dateParse key fallback = .ok (.date (dateParse s))) ∧
        (((dateParse s).isFinite && (dateParse s).gtZero) = false →
          p.getDate dateParse key fallback
            = .error (.typeError (invalidValueMsg key p.name "date" (.str s))))) ∧
      (∀ n, p.get key fallback = .ok (.num n) →
        ((n.isFinite && n.gtZero) = true →
          p.getDate dateParse key fallback = .ok (.date n)) ∧
        ((n.isFinite && n.gtZero) = false →
          p.getDate dateParse key fallback
            = .error (.typeError (invalidValueMsg key p.name "date" (.num n))))) ∧
      (∀ v, p.get key fallback = .ok v →
        (∀ t, v ≠ .date t) → (∀ s, v ≠ .str s) → (∀ n, v ≠ .num n) →
        p.getDate dateParse key fallback
          = .error (.typeError (invalidValueMsg key p.name "date" v))) := by
    intro dateParse p key fallback
    refine ⟨?_, ?_, ?_, ?_⟩
    · intro t hg
      rw [DataPicker.getDate, hg]
    · intro s hg
      rw [DataPicker.getDate, hg]
      constructor
      · intro hok
        simp [hok]
      · intro hok
        simp [hok]
    · intro n hg
      rw [DataPicker.getDate, hg]
      constructor
      · intro hok
        simp [hok]
      · intro hok
        simp [hok]
    · intro v hg ht hs hn
      rw [DataPicker.getDate, hg]
      cases v with
      | date t => exact absurd rfl (ht t)
      | str s => exact absurd rfl (hs s)
      | num n => exact absurd rfl (hn n)
      | undefined => rfl
      | null => rfl
      | bool b => rfl
      | arr elems => rfl
      | obj fields => rfl
  refine ⟨main, ?_, ?_, ?_⟩
  · intro dateParse
    exact ((main dateParse ⟨"env", [("k", .num (.fin 0))]⟩ "k" none).2.2.1
      (.fin 0) (by with_unfolding_all rfl)).2 (by with_unfolding_all rfl)
  · intro dateParse
    exact ((main dateParse ⟨"env", [("k", .num (.fin 1000))]⟩ "k" none).2.2.1
      (.fin 1000) (by with_unfolding_all rfl)).1 (by with_unfolding_all rfl)
  · intro dateParse hnan
    refine ((main dateParse ⟨"env", [("k", .str "not-a-date")]⟩ "k" none).2.1
      "not-a-date" (by with_unfolding_all rfl)).2 ?_
    rw [hnan]
    rfl

/-- Witness for C4: with a `Date.parse` that yields `NaN` on every input,
a stored `Date` object is returned as-is, the timestamp `1000` becomes
the date one second after the epoch, and the timestamp `0` is rejected. -/
theorem C4_witness :
    DataPicker.getDate (fun _ => .nan) ⟨"env", [("k", .date (.fin 77))]⟩ "k" none
      = .ok (.date (.fin 77)) ∧
    DataPicker.getDate (fun _ => .nan) ⟨"env", [("k", .num (.fin 1000))]⟩ "k" none
      = .ok (.date (.fin 1000)) ∧
    DataPicker.getDate (fun _ => .nan) ⟨"env", [("k", .num (.fin 0))]⟩ "k" none
      = .error (.typeError (invalidValueMsg "k" "env" "date" (.num (.fin 0)))) := by
  refine ⟨?_, ?_, ?_⟩
  · exact (C4_getDate_order.1 (fun _ => .nan) ⟨"env", [("k", .date (.fin 77))]⟩ "k"
      none).1 (.fin 77) (by with_unfolding_all rfl)
  · exact C4_getDate_order.2.2.1 (fun _ => .nan)
  · exact C4_getDate_order.2.1 (fun _ => .nan)

/-- The child accessors produced by a successful `getObjectArray`: one per
element, in order, labelled `name.key[i]`. -/
def childPickers (name key : String) (elems : List Value) : List DataPicker :=
  elems.enum.map (fun iv => ⟨childArrayLabel name key iv.1, iv.2.ownFields⟩)

theorem wrapItems_ok (name key : String) (value : List Value) :
    ∀ (rest : List Value) (i : Nat),
    (∀ x ∈ rest, (jsTypeof x == "object" && !x.isNull) = true) →
    wrapItems name key value i rest
      = .ok ((rest.enumFrom i).map
          (fun iv => ⟨childArrayLabel name key iv.1, iv.2.ownFields⟩)) := by
  intro rest
  induction rest with
  | nil => intro i _; rfl
  | cons item rest ih =>
    intro i hall
    have hitem := hall item (List.mem_cons_self item rest)
    have hrest : ∀ x ∈ rest, (jsTypeof x == "object" && !x.isNull) = true :=
      fun x hx => hall x (List.mem_cons_of_mem item hx)
    rw [wrapItems, if_pos hitem, ih (i + 1) hrest]
    rfl

theorem wrapItems_error (name key : String) (value : List Value) :
    ∀ (rest : List Value) (i : Nat),
    (∃ x ∈ rest, (jsTypeof x == "object" && !x.isNull) = false) →
    wrapItems name key value i rest
      = .error (.typeError (invalidValueMsg key name "object" (.arr value))) := by
  intro rest
  induction rest with
  | nil => rintro i ⟨x, hx, _⟩; exact absurd hx (List.not_mem_nil x)
  | cons item rest ih =>
    rintro i ⟨x, hx, hxbad⟩
    by_cases hitem : (jsTypeof item == "object" && !item.isNull) = true
    · rcases List.mem_cons.mp hx with rfl | hx'
      · rw [hitem] at hxbad
        exact absurd hxbad (by simp)
      · rw [wrapItems, if_pos hitem, ih (i + 1) ⟨x, hx', hxbad⟩]
    · rw [wrapItems, if_neg hitem]

/-- C6: when a key holds an array whose elements are all non-null
structured values, `getObjectArray` returns one child accessor per
element in the original order, the child at zero-based position `i`
being labelled `name + "." + key + "[" + i + "]"`; when any element
fails the check the entire call fails with `TypeMismatchError`. -/
theorem C6_getObjectArray_children :
    (∀ (p : DataPicker) (key : String) (fallback : Option Value) (elems : List Value),
      p.get key fallback = .ok (.arr elems) →
      ((∀ x ∈ elems, (jsTypeof x == "object" && !x.isNull) = true) →
        p.getObjectArray key fallback = .ok (childPickers p.name key elems) ∧
        (childPickers p.name key elems).length = elems.length ∧
        (∀ (i : Nat) (h : i < (childPickers p.name key elems).length),
          ((childPickers p.name key elems).get ⟨i, h⟩).name
            = p.name ++ "." ++ key ++ "[" ++ toString i ++ "]")) ∧
      ((∃ x ∈ elems, (jsTypeof x == "object" && !x.isNull) = false) →
        p.getObjectArray key fallback
          = .error (.typeError (invalidValueMsg key p.name "object" (.arr elems))))) ∧
    (DataPicker.getObjectArray
        ⟨"root", [("items", .arr [.obj [("a", .num (.fin 1))]])]⟩ "items" none
      = .ok [⟨"root.items[0]", [("a", .num (.fin 1))]⟩]) ∧
    (DataPicker.getObjectArray
        ⟨"root", [("items", .arr [.obj [("a", .num (.fin 1))], .str "bad"])]⟩ "items" none
      = .error (.typeError (invalidValueMsg "items" "root" "object"
          (.arr [.obj [("a", .num (.fin 1))], .str "bad"])))) := by
  refine ⟨?_, by with_unfolding_all rfl, by with_unfolding_all rfl⟩
  intro p key fallback elems hg
  have harr : p.getArray key fallback = .ok elems := by
    rw [DataPicker.getArray, hg]
  constructor
  · intro hall
    refine ⟨?_, ?_, ?_⟩
    · rw [DataPicker.getObjectArray, harr]
      show wrapItems p.name key elems 0 elems = _
      rw [wrapItems_ok p.name key elems elems 0 hall]
      rfl
    · simp [childPickers, List.enum_length]
    · intro i h
      simp [childPickers, List.get_eq_getElem, List.getElem_map, List.getElem_enum,
        childArrayLabel]
  · intro hbad
    rw [DataPicker.getObjectArray, harr]
    show wrapItems p.name key elems 0 elems = _
    exact wrapItems_error p.name key elems elems 0 hbad

/-- Witness for C6: on `\x7bitems: [\x7ba: 1\x7d]\x7d` the call returns one child
accessor labelled `root.items[0]`; adding the element `"bad"` makes the
whole call fail. -/
theorem C6_witness :
    DataPicker.getObjectArray
        ⟨"root", [("items", .arr [.obj [("a", .num (.fin 1))]])]⟩ "items" none
      = .ok (childPickers "root" "items" [.obj [("a", .num (.fin 1))]]) ∧
    DataPicker.getObjectArray
        ⟨"root", [("items", .arr [.obj [("a", .num (.fin 1))], .str "bad"])]⟩ "items" none
      = .error (.typeError (invalidValueMsg "items" "root" "object"
          (.arr [.obj [("a", .num (.fin 1))], .str "bad"]))) := by
  constructor
  · exact ((C6_getObjectArray_children.1
      ⟨"root", [("items", .arr [.obj [("a", .num (.fin 1))]])]⟩ "items" none
      [.obj [("a", .num (.fin 1))]] (by with_unfolding_all rfl)).1
      (by intro x hx; simp at hx; subst hx; rfl)).1
  · exact (C6_getObjectArray_children.1
      ⟨"root", [("items", .arr [.obj [("a", .num (.fin 1))], .str "bad"])]⟩ "items" none
      [.obj [("a", .num (.fin 1))], .str "bad"] (by with_unfolding_all rfl)).2
      ⟨.str "bad", by simp, by rfl⟩

/-! ### Substring containment, for the error-message contract -/

/-- `listHasSub needle haystack`: `needle` occurs contiguously in
`haystack`. -/
def listHasSub (needle : List Char) : List Char → Bool
  | [] => needle.isEmpty
  | c :: rest => needle.isPrefixOf (c :: rest) || listHasSub needle rest

/-- `strContains haystack needle`: `needle` occurs in `haystack`. -/
def strContains (haystack needle : String) : Bool :=
  listHasSub needle.data haystack.data

theorem isPrefixOf_append_self : ∀ (l t : List Char), l.isPrefixOf (l ++ t) = true := by
  intro l
  induction l with
  | nil => intro t; cases t <;> simp [List.isPrefixOf]
  | cons a as ih => intro t; simp [List.isPrefixOf, ih]


theorem listHasSub_here : ∀ (n post : List Char), listHasSub n (n ++ post) = true := by
  intro n post
  cases n with
  | nil =>
    cases post with
    | nil => rfl
    | cons c rest => simp [listHasSub, List.isPrefixOf]
  | cons a as =>
    simp only [List.cons_append, listHasSub, Bool.or_eq_true]
    have h := isPrefixOf_append_self (a :: as) post
    simp only [List.cons_append] at h
    exact Or.inl h

theorem listHasSub_self (n : List Char) : listHasSub n n = true := by
  have h := listHasSub_here n []
  rwa [List.append_nil] at h

theorem listHasSub_append_left (n pre t : List Char)
    (h : listHasSub n t = true) : listHasSub n (pre ++ t) = true := by
  induction pre with
  | nil => exact h
  | cons c cs ih => simp [listHasSub, ih]



theorem wrapItems_error_eq (name key : String) (value : List Value) :
    ∀ (rest : List Value) (i : Nat) (e : JSError),
    wrapItems name key value i rest = .error e →
    e = .typeError (invalidValueMsg key name "object" (.arr value)) := by
  intro rest
  induction rest with
  | nil => intro i e h; exact absurd h (by simp [wrapItems])
  | cons item rest ih =>
    intro i e h
    rw [wrapItems] at h
    by_cases hitem : (jsTypeof item == "object" && !item.isNull) = true
    · rw [if_pos hitem] at h
      cases hrec : wrapItems name key value (i + 1) rest with
      | error e2 =>
        rw [hrec] at h
        simp at h
        exact h ▸ ih (i + 1) e2 hrec
      | ok children =>
        rw [hrec] at h
        simp at h
    · rw [if_neg hitem] at h
      simp at h
      exact h.symm

theorem getNumber_ok_rw (p : DataPicker) (key : String) (fallback : Option Value)
    (v : Value) (hg : p.get key fallback = .ok v) :
    p.getNumber key fallback =
      match numberParseStep v with
      | .num n =>
        if n.isFinite then .ok n
        else .error (.typeError (invalidValueMsg key p.name "number" (.num n)))
      | w => .error (.typeError (invalidValueMsg key p.name "number" w)) := by
  rw [DataPicker.getNumber, hg]

/-- C7 (counterexample): the claim requires every `MissingKeyError`
message to contain the expected type name, but the missing-key message
raised by `getString` — whose expected type name is `string` — is
`"Missing key PORT in env"`, which does not contain `"string"` (nor any
rendering of an offending value). -/
theorem C7_counterexample :
    DataPicker.getString ⟨"env", []⟩ "PORT" none
      = .error (.referenceError (missingKeyMsg "PORT" "env")) ∧
    missingKeyMsg "PORT" "env" = "Missing key PORT in env" ∧
    strContains (missingKeyMsg "PORT" "env") "string" = false := by
  refine ⟨by with_unfolding_all rfl, by with_unfolding_all rfl, by decide⟩

/-- C7 (amended): every `TypeMismatchError` message contains the key, the
accessor's label, the expected type name, and the rendering of the
offending value — for `getObjectArray`'s element failure the rendered
value is the whole array, not the malformed element itself; a
`MissingKeyError` message contains the key and the label only, and each
getter only ever raises these two message shapes. -/
theorem C7_amended_messages :
    (∀ (key name expected : String) (v : Value),
      strContains (invalidValueMsg key name expected v) key = true ∧
      strContains (invalidValueMsg key name expected v) name = true ∧
      strContains (invalidValueMsg key name expected v) expected = true ∧
      strContains (invalidValueMsg key name expected v) (inspect v) = true) ∧
    (∀ key name : String,
      strContains (missingKeyMsg key name) key = true ∧
      strContains (missingKeyMsg key name) name = true) ∧
    (∀ (p : DataPicker) (key : String) (fallback : Option Value) (e : JSError),
      (p.getString key fallback = .error e →
        e = .referenceError (missingKeyMsg key p.name) ∨
        ∃ v, e = .typeError (invalidValueMsg key p.name "string" v)) ∧
      (p.getNumber key fallback = .error e →
        e = .referenceError (missingKeyMsg key p.name) ∨
        ∃ v, e = .typeError (invalidValueMsg key p.name "number" v)) ∧
      (p.getBoolean key fallback = .error e →
        e = .referenceError (missingKeyMsg key p.name)) ∧
      (∀ dateParse, p.getDate dateParse key fallback = .error e →
        e = .referenceError (missingKeyMsg key p.name) ∨
        ∃ v, e = .typeError (invalidValueMsg key p.name "date" v)) ∧
      (p.getArray key fallback = .error e →
        e = .referenceError (missingKeyMsg key p.name) ∨
        ∃ v, e = .typeError (invalidValueMsg key p.name "array" v)) ∧
      (p.getObject key fallback = .error e →
        e = .referenceError (missingKeyMsg key p.name) ∨
        ∃ v, e = .typeError (invalidValueMsg key p.name "object" v)) ∧
      (p.getRawObject key fallback = .error e →
        e = .referenceError (missingKeyMsg key p.name) ∨
        ∃ v, e = .typeError (invalidValueMsg key p.name "object" v)) ∧
      (p.getObjectArray key fallback = .error e →
        e = .referenceError (missingKeyMsg key p.name) ∨
        (∃ v, e = .typeError (invalidValueMsg key p.name "array" v)) ∨
        (∃ elems, e = .typeError (invalidValueMsg key p.name "object" (.arr elems))))) := by
  refine ⟨?_, ?_, ?_⟩
  · intro key name expected v
    refine ⟨?_, ?_, ?_, ?_⟩ <;>
    · simp only [strContains, invalidValueMsg, String.data_append, List.append_assoc]
      repeat first
        | exact listHasSub_self _
        | exact listHasSub_here _ _
        | apply listHasSub_append_left
  · intro key name
    refine ⟨?_, ?_⟩ <;>
    · simp only [strContains, missingKeyMsg, String.data_append, List.append_assoc]
      repeat first
        | exact listHasSub_self _
        | exact listHasSub_here _ _
        | apply listHasSub_append_left
  · intro p key fallback e
    have hget : ∀ e2, p.get key fallback = .error e2 →
        e2 = .referenceError (missingKeyMsg key p.name) :=
      fun e2 h => (get_error_eq p key fallback e2 h).1
    refine ⟨?_, ?_, ?_, ?_, ?_, ?_, ?_, ?_⟩
    · intro h
      rw [DataPicker.getString] at h
      cases hg : p.get key fallback with
      | error e2 =>
        rw [hg] at h
        simp at h
        exact Or.inl (h ▸ hget e2 hg)
      | ok v =>
        rw [hg] at h
        cases v <;> simp at h <;> exact Or.inr ⟨_, h.symm⟩
    · intro h
      cases hg : p.get key fallback with
      | error e2 =>
        rw [DataPicker.getNumber, hg] at h
        simp at h
        exact Or.inl (h ▸ hget e2 hg)
      | ok v =>
        rw [getNumber_ok_rw p key fallback v hg] at h
        cases hnp : numberParseStep v with
        | num n =>
          rw [hnp] at h
          by_cases hf : n.isFinite = true
          · simp [hf] at h
          · simp [hf] at h
            exact Or.inr ⟨.num n, h.symm⟩
        | undefined => rw [hnp] at h; simp at h; exact Or.inr ⟨_, h.symm⟩
        | null => rw [hnp] at h; simp at h; exact Or.inr ⟨_, h.symm⟩
        | bool b => rw [hnp] at h; simp at h; exact Or.inr ⟨_, h.symm⟩
        | str s => rw [hnp] at h; simp at h; exact Or.inr ⟨_, h.symm⟩
        | arr elems => rw [hnp] at h; simp at h; exact Or.inr ⟨_, h.symm⟩
        | obj fields => rw [hnp] at h; simp at h; exact Or.inr ⟨_, h.symm⟩
        | date t => rw [hnp] at h; simp at h; exact Or.inr ⟨_, h.symm⟩
    · intro h
      rw [DataPicker.getBoolean] at h
      cases hg : p.get key fallback with
      | error e2 =>
        rw [hg] at h
        simp at h
        exact h ▸ hget e2 hg
      | ok v =>
        rw [hg] at h
        cases v <;> simp at h
    · intro dateParse h
      rw [DataPicker.getDate] at h
      cases hg : p.get key fallback with
      | error e2 =>
        rw [hg] at h
        simp at h
        exact Or.inl (h ▸ hget e2 hg)
      | ok v =>
        rw [hg] at h
        cases v with
        | date t => simp at h
        | str s =>
          by_cases hp : ((dateParse s).isFinite && (dateParse s).gtZero) = true
          · simp [hp] at h
          · simp [hp] at h
            exact Or.inr ⟨.str s, h.symm⟩
        | num n =>
          by_cases hp : (n.isFinite && n.gtZero) = true
          · simp [hp] at h
          · simp [hp] at h
            exact Or.inr ⟨.num n, h.symm⟩
        | undefined => simp at h; exact Or.inr ⟨_, h.symm⟩
        | null => simp at h; exact Or.inr ⟨_, h.symm⟩
        | bool b => simp at h; exact Or.inr ⟨_, h.symm⟩
        | arr elems => simp at h; exact Or.inr ⟨_, h.symm⟩
        | obj fields => simp at h; exact Or.inr ⟨_, h.symm⟩
    · intro h
      rw [DataPicker.getArray] at h
      cases hg : p.get key fallback with
      | error e2 =>
        rw [hg] at h
        simp at h
        exact Or.inl (h ▸ hget e2 hg)
      | ok v =>
        rw [hg] at h
        cases v <;> simp at h <;> exact Or.inr ⟨_, h.symm⟩
    · intro h
      rw [DataPicker.getObject] at h
      cases hg : p.get key fallback with
      | error e2 =>
        rw [hg] at h
        simp at h
        exact Or.inl (h ▸ hget e2 hg)
      | ok v =>
        rw [hg] at h
        by_cases hv : (jsTypeof v == "object" && !v.isNull) = true
        · simp [hv] at h
        · simp [hv] at h
          exact Or.inr ⟨v, h.symm⟩
    · intro h
      rw [DataPicker.getRawObject] at h
      cases hg : p.get key fallback with
      | error e2 =>
        rw [hg] at h
        simp at h
        exact Or.inl (h ▸ hget e2 hg)
      | ok v =>
        rw [hg] at h
        by_cases hv : (jsTypeof v == "object" && !v.isNull) = true
        · simp [hv] at h
        · simp [hv] at h
          exact Or.inr ⟨v, h.symm⟩
    · intro h
      rw [DataPicker.getObjectArray] at h
      cases ha : p.getArray key fallback with
      | error e2 =>
        rw [ha] at h
        simp at h
        subst h
        rw [DataPicker.getArray] at ha
        cases hg : p.get key fallback with
        | error e3 =>
          rw [hg] at ha
          simp at ha
          exact Or.inl (ha ▸ hget e3 hg)
        | ok v =>
          rw [hg] at ha
          cases v <;> simp at ha <;> exact Or.inr (Or.inl ⟨_, ha.symm⟩)
      | ok elems =>
        rw [ha] at h
        exact Or.inr (Or.inr ⟨elems, wrapItems_error_eq p.name key elems elems 0 e h⟩)

/-- Witness for C7 (amended): the type-mismatch error raised by
`getString` on a stored number carries exactly the template message, and
that message contains the expected type name `string`. -/
theorem C7_witness :
    (JSError.typeError (invalidValueMsg "k" "env" "string" (.num (.fin 7)))
        = .referenceError (missingKeyMsg "k" "env") ∨
      ∃ v, JSError.typeError (invalidValueMsg "k" "env" "string" (.num (.fin 7)))
        = .typeError (invalidValueMsg "k" "env" "string" v)) ∧
    strContains (invalidValueMsg "k" "env" "string" (.num (.fin 7))) "string" = true := by
  constructor
  · exact (C7_amended_messages.2.2 ⟨"env", [("k", .num (.fin 7))]⟩ "k" none
      (.typeError (invalidValueMsg "k" "env" "string" (.num (.fin 7))))).1
      (by with_unfolding_all rfl)
  · exact (C7_amended_messages.1 "k" "env" "string" (.num (.fin 7))).2.2.1
